import Mathlib

/-!
Verification development for a PDF signing server.

The repository core is the class PdfSigner in src/src/services/pdfSigner.js:
header validation (isPdfValid), the buffer signing pipeline (signPdfBuffer),
certificate loading (constructor and loadCertificate) and certificate
introspection (parseCertificateInfo and getCertificateInfo), together with
the server bootstrap (initializeSigner) in the express module.

The placeholder step (pdf-lib and pdflibAddPlaceholder) and the detached
signing step (SignPdf.sign with a P12Signer) are third-party collaborators
whose code is not part of this repository; they are modelled from the
specification, and every such definition says so in its doc comment. Byte
buffers are lists of natural numbers, one entry per byte. Filesystem
collaborators (readFileSync, statSync, existsSync) are passed as explicit
function parameters.
-/

namespace PdfSigning

/-- Byte buffers: one natural number per byte. -/
abbrev Buffer := List Nat

/-- Error kinds surfaced by the signing pipeline, following the taxonomy of
the specification. -/
inductive SignError where
  | invalidDocument
  | signingFailure
  | otherFailure (msg : String)
  deriving DecidableEq, Repr

/-- Node Buffer.toString with the ascii encoding clears the highest bit of
every byte before decoding, so each decoded character code is the byte value
modulo 128. -/
def asciiDecode (buffer : Buffer) : List Nat :=
  buffer.map (fun b => b % 128)

/-- PdfSigner.isPdfValid: reject buffers shorter than four bytes, then decode
the first four bytes with the ascii encoding and require the decoded header
to start with the four character codes of the PDF magic, 37 80 68 70. -/
def isPdfValid (buffer : Buffer) : Bool :=
  if buffer.length < 4 then false
  else if ([37, 80, 68, 70].isPrefixOf (asciiDecode (buffer.take 4))) = false then false
  else true

/-- Optional signature metadata options; none stands for a JavaScript field
that is absent or undefined. -/
structure SignatureOptions where
  reason : Option String := none
  location : Option String := none
  contact : Option String := none
  deriving DecidableEq, Repr

/-- JavaScript s || d for a possibly absent string s: the default d is used
when s is absent and also when s is the empty string, because the empty
string is falsy. -/
def jsStringOr (s : Option String) (d : String) : String :=
  match s with
  | none => d
  | some v => if v = "" then d else v

/-- Arguments of the pdflibAddPlaceholder call inside
PdfSigner.signPdfBuffer. -/
structure PlaceholderArgs where
  reason : String
  location : String
  contactInfo : String
  name : String
  signatureLength : Nat
  deriving DecidableEq, Repr

/-- Metadata arguments that PdfSigner.signPdfBuffer passes to the placeholder
step, with the literal defaults of the source. -/
def placeholderArgs (opts : SignatureOptions) : PlaceholderArgs where
  reason := jsStringOr opts.reason "Document signed by server"
  location := jsStringOr opts.location "Server"
  contactInfo := jsStringOr opts.contact "N/A"
  name := "PDF Signing Server"
  signatureLength := 8192

/-- Modelled from the spec: the signing identity held by the server. The
field keyUsable records whether the private key can be used (correct
passphrase, intact key material); cert is the signing certificate; sigOf is
the cryptographic signature over a digest, produced with the private key. -/
structure Identity where
  keyUsable : Bool
  cert : Buffer
  sigOf : Buffer → Buffer

/-- Modelled from the spec: a detached signature container binding a digest,
the signing certificate and a signature over the digest. -/
structure SigContainer where
  digest : Buffer
  cert : Buffer
  signature : Buffer

/-- Container built by the detached signer for a given digest. -/
def containerOf (identity : Identity) (d : Buffer) : SigContainer :=
  ⟨d, identity.cert, identity.sigOf d⟩

/-- Modelled from the spec: serialization of the container into the binary
signature format. -/
def containerBytes (c : SigContainer) : Buffer :=
  c.digest ++ c.cert ++ c.signature

/-- Character code of a lowercase hexadecimal digit. -/
def hexDigitCode (n : Nat) : Nat :=
  if n < 10 then 48 + n else 87 + n

/-- Hex encoding of a byte buffer, two hexadecimal character codes per
byte. -/
def hexEncode (bs : Buffer) : Buffer :=
  bs.foldr (fun b acc => hexDigitCode (b / 16) :: hexDigitCode (b % 16) :: acc) []

/-- Modelled from the spec: the intermediate document produced by the
placeholder step (pdflibAddPlaceholder followed by PDFDocument.save, both
outside this repository). The field bytes is the serialized document, start
is the byte offset of the reserved Contents hex payload, and capacity is the
number of reserved hex characters; the four ByteRange integers written into
the document are recovered from these fields by byteRangeOf below. -/
structure Prepared where
  bytes : Buffer
  start : Nat
  capacity : Nat
  deriving DecidableEq, Repr

/-- Well-formedness of an intermediate document: the reserved region lies
inside the document. -/
abbrev Prepared.wf (p : Prepared) : Prop :=
  p.start + p.capacity ≤ p.bytes.length

/-- The four integers of a ByteRange entry: two offset and length pairs. -/
structure ByteRange where
  offset1 : Nat
  length1 : Nat
  offset2 : Nat
  length2 : Nat
  deriving DecidableEq, Repr

/-- ByteRange entry of the intermediate document: the two spans cover every
byte except the reserved Contents hex payload. -/
def byteRangeOf (p : Prepared) : ByteRange :=
  ⟨0, p.start, p.start + p.capacity, p.bytes.length - (p.start + p.capacity)⟩

/-- The len bytes of a buffer starting at offset off. -/
def slice (bs : Buffer) (off len : Nat) : Buffer :=
  (bs.drop off).take len

/-- Concatenation of the two ByteRange spans of a buffer. -/
def spansOf (bs : Buffer) (br : ByteRange) : Buffer :=
  slice bs br.offset1 br.length1 ++ slice bs br.offset2 br.length2

/-- The bytes of the intermediate document outside the reserved region: this
is the message the detached signer digests. -/
def signedSpans (p : Prepared) : Buffer :=
  p.bytes.take p.start ++ p.bytes.drop (p.start + p.capacity)

/-- Hex encoding of the container built over the digest of the two ByteRange
spans of the intermediate document. -/
def containerHex (identity : Identity) (digest : Buffer → Buffer) (p : Prepared) : Buffer :=
  hexEncode (containerBytes (containerOf identity (digest (signedSpans p))))

/-- Result of splicing a hex container into the reserved region: the bytes
before the region, the container, zero bytes filling the unused capacity,
then the bytes after the region. -/
def spliced (p : Prepared) (hex : Buffer) : Buffer :=
  p.bytes.take p.start ++ hex ++
    List.replicate (p.capacity - hex.length) 0 ++
    p.bytes.drop (p.start + p.capacity)

/-- Modelled from the spec: the detached signing step (SignPdf.sign with a
P12Signer, outside this repository). It fails with SigningFailure when the
private key cannot be used or when the hex encoding of the container exceeds
the reserved capacity; otherwise it splices the hex container into the
reserved region, padding unused capacity with zero bytes and leaving every
other byte unchanged. -/
def signDetached (identity : Identity) (digest : Buffer → Buffer) (p : Prepared) :
    Except SignError Buffer :=
  if identity.keyUsable = false then .error .signingFailure
  else if p.capacity < (containerHex identity digest p).length then .error .signingFailure
  else .ok (spliced p (containerHex identity digest p))

/-- PdfSigner.signPdfBuffer: validate the header, run the placeholder step
(the collaborator prepare, outside this repository, given the defaulted
metadata arguments), then the detached signing step. -/
def signPdfBuffer
    (prepare : Buffer → PlaceholderArgs → Except SignError Prepared)
    (digest : Buffer → Buffer) (identity : Identity)
    (pdfBuffer : Buffer) (signatureOptions : SignatureOptions) :
    Except SignError Buffer :=
  if isPdfValid pdfBuffer = false then .error .invalidDocument
  else
    match prepare pdfBuffer (placeholderArgs signatureOptions) with
    | .error e => .error e
    | .ok p => signDetached identity digest p

/-- Fixture placeholder collaborator: accepts any input and returns a fixed
intermediate document. -/
def fixPrepare (p : Prepared) : Buffer → PlaceholderArgs → Except SignError Prepared :=
  fun _ _ => .ok p

/-- Fixture identity with a usable key. -/
def fixIdentity : Identity :=
  ⟨true, [1], fun _ => [2]⟩

/-- Fixture digest function. -/
def fixDigest : Buffer → Buffer :=
  fun _ => [3]

/-- Fixture intermediate document: twelve bytes with six reserved hex
characters starting at offset four. -/
def fixPrepared : Prepared :=
  ⟨[37, 80, 68, 70, 0, 0, 0, 0, 0, 0, 0, 0], 4, 6⟩

/-- Fixture output of the detached signing step on fixPrepared. -/
def fixSigned : Buffer :=
  [37, 80, 68, 70, 48, 51, 48, 49, 48, 50, 0, 0]

/-- Length of the prefix kept before the reserved region. -/
theorem length_take_start (p : Prepared) (hwf : p.wf) :
    (p.bytes.take p.start).length = p.start := by
  simp [List.length_take]
  omega

/-- Decomposition of a spliced document after the kept prefix. -/
theorem spliced_drop_start (p : Prepared) (hex : Buffer) (hwf : p.wf) :
    (spliced p hex).drop p.start =
      hex ++ List.replicate (p.capacity - hex.length) 0 ++
        p.bytes.drop (p.start + p.capacity) := by
  unfold spliced
  rw [List.append_assoc, List.append_assoc]
  rw [List.drop_left' (length_take_start p hwf)]
  rw [← List.append_assoc]

/-- Splicing preserves the bytes before the reserved region. -/
theorem spliced_take (p : Prepared) (hex : Buffer) (hwf : p.wf) :
    (spliced p hex).take p.start = p.bytes.take p.start := by
  unfold spliced
  rw [List.append_assoc, List.append_assoc]
  exact List.take_left' (length_take_start p hwf)

/-- Splicing preserves the bytes after the reserved region. -/
theorem spliced_drop (p : Prepared) (hex : Buffer) (hfit : hex.length ≤ p.capacity)
    (hwf : p.wf) :
    (spliced p hex).drop (p.start + p.capacity) =
      p.bytes.drop (p.start + p.capacity) := by
  unfold spliced
  refine List.drop_left' ?_
  simp [List.length_append, List.length_take, List.length_replicate]
  omega

/-- Splicing preserves the document length. -/
theorem spliced_length (p : Prepared) (hex : Buffer) (hfit : hex.length ≤ p.capacity)
    (hwf : p.wf) :
    (spliced p hex).length = p.bytes.length := by
  unfold spliced
  simp [List.length_append, List.length_take, List.length_replicate, List.length_drop]
  omega

/-- The reserved region of a spliced document holds the container followed by
the zero padding. -/
theorem spliced_slice (p : Prepared) (hex : Buffer) (hfit : hex.length ≤ p.capacity)
    (hwf : p.wf) :
    slice (spliced p hex) p.start p.capacity =
      hex ++ List.replicate (p.capacity - hex.length) 0 := by
  unfold slice
  rw [spliced_drop_start p hex hwf]
  refine List.take_left' ?_
  simp [List.length_append, List.length_replicate]
  omega

/-- The full container is present at the head of the reserved region of a
spliced document: nothing is truncated. -/
theorem spliced_slice_hex (p : Prepared) (hex : Buffer) (hwf : p.wf) :
    slice (spliced p hex) p.start hex.length = hex := by
  unfold slice
  rw [spliced_drop_start p hex hwf, List.append_assoc]
  exact List.take_left' rfl

/-- Inversion of a successful detached signing step. -/
theorem signDetached_ok (identity : Identity) (digest : Buffer → Buffer)
    (p : Prepared) (out : Buffer)
    (h : signDetached identity digest p = .ok out) :
    identity.keyUsable = true ∧
      (containerHex identity digest p).length ≤ p.capacity ∧
      out = spliced p (containerHex identity digest p) := by
  unfold signDetached at h
  split at h
  · exact absurd h (by simp)
  · split at h
    · exact absurd h (by simp)
    · rename_i hkey hlen
      refine ⟨by simpa using hkey, by omega, ?_⟩
      cases h
      rfl

/-- Inversion of signPdfBuffer when the placeholder step is known. -/
theorem signPdfBuffer_ok (prepare : Buffer → PlaceholderArgs → Except SignError Prepared)
    (digest : Buffer → Buffer) (identity : Identity)
    (input : Buffer) (opts : SignatureOptions) (p : Prepared) (out : Buffer)
    (hprep : prepare input (placeholderArgs opts) = .ok p)
    (h : signPdfBuffer prepare digest identity input opts = .ok out) :
    signDetached identity digest p = .ok out := by
  unfold signPdfBuffer at h
  split at h
  · exact absurd h (by simp)
  · rw [hprep] at h
    exact h

/-- Claim C2: the detached signing step preserves document length and changes
only the reserved Contents region, which receives the hex container padded
with zero bytes; every byte before and after the region is unchanged. -/
theorem c2_sign_frame (identity : Identity) (digest : Buffer → Buffer)
    (p : Prepared) (out : Buffer) (hwf : p.wf)
    (h : signDetached identity digest p = .ok out) :
    out.length = p.bytes.length ∧
    out.take p.start = p.bytes.take p.start ∧
    out.drop (p.start + p.capacity) = p.bytes.drop (p.start + p.capacity) ∧
    slice out p.start p.capacity =
      containerHex identity digest p ++
        List.replicate (p.capacity - (containerHex identity digest p).length) 0 := by
  obtain ⟨-, hfit, hout⟩ := signDetached_ok identity digest p out h
  subst hout
  exact ⟨spliced_length p _ hfit hwf, spliced_take p _ hwf,
    spliced_drop p _ hfit hwf, spliced_slice p _ hfit hwf⟩

/-- Witness for claim C2 at a concrete intermediate document. -/
theorem c2_sign_frame_witness :
    fixPrepared.wf ∧
    signDetached fixIdentity fixDigest fixPrepared = .ok fixSigned ∧
    (fixSigned.length = fixPrepared.bytes.length ∧
      fixSigned.take fixPrepared.start = fixPrepared.bytes.take fixPrepared.start ∧
      fixSigned.drop (fixPrepared.start + fixPrepared.capacity) =
        fixPrepared.bytes.drop (fixPrepared.start + fixPrepared.capacity) ∧
      slice fixSigned fixPrepared.start fixPrepared.capacity =
        containerHex fixIdentity fixDigest fixPrepared ++
          List.replicate (fixPrepared.capacity -
            (containerHex fixIdentity fixDigest fixPrepared).length) 0) :=
  ⟨by decide, rfl, c2_sign_frame fixIdentity fixDigest fixPrepared fixSigned (by decide) rfl⟩

/-- Claim C1: when the pipeline succeeds, digesting the concatenation of the
two ByteRange spans of the output yields exactly the digest embedded in the
container stored in the reserved Contents region of the output. -/
theorem c1_roundtrip (prepare : Buffer → PlaceholderArgs → Except SignError Prepared)
    (digest : Buffer → Buffer) (identity : Identity)
    (input : Buffer) (opts : SignatureOptions) (p : Prepared) (out : Buffer)
    (hprep : prepare input (placeholderArgs opts) = .ok p)
    (hwf : p.wf)
    (h : signPdfBuffer prepare digest identity input opts = .ok out) :
    ∃ c : SigContainer,
      slice out p.start p.capacity =
        hexEncode (containerBytes c) ++
          List.replicate (p.capacity - (hexEncode (containerBytes c)).length) 0 ∧
      c.digest = digest (spansOf out (byteRangeOf p)) := by
  have hsd := signPdfBuffer_ok prepare digest identity input opts p out hprep h
  obtain ⟨-, hfit, hout⟩ := signDetached_ok identity digest p out hsd
  refine ⟨containerOf identity (digest (signedSpans p)), ?_, ?_⟩
  · subst hout
    exact spliced_slice p _ hfit hwf
  · have hspans : spansOf out (byteRangeOf p) = signedSpans p := by
      subst hout
      unfold spansOf byteRangeOf signedSpans slice
      have h1 : (spliced p (containerHex identity digest p)).drop 0 =
          spliced p (containerHex identity digest p) := List.drop_zero _
      rw [h1]
      have h2 : (spliced p (containerHex identity digest p)).take p.start =
          p.bytes.take p.start := spliced_take p _ hwf
      rw [show ((spliced p (containerHex identity digest p)).take p.start) =
            p.bytes.take p.start from h2]
      rw [spliced_drop p _ hfit hwf]
      congr 1
      have hlen : (p.bytes.drop (p.start + p.capacity)).length =
          p.bytes.length - (p.start + p.capacity) := List.length_drop _ _
      rw [← hlen]
      exact List.take_length _
    rw [hspans]
    rfl

/-- Witness for claim C1 at a concrete run of the pipeline. -/
theorem c1_roundtrip_witness :
    fixPrepare fixPrepared [37, 80, 68, 70] (placeholderArgs {}) = .ok fixPrepared ∧
    fixPrepared.wf ∧
    signPdfBuffer (fixPrepare fixPrepared) fixDigest fixIdentity [37, 80, 68, 70] {} =
      .ok fixSigned ∧
    (∃ c : SigContainer,
      slice fixSigned fixPrepared.start fixPrepared.capacity =
        hexEncode (containerBytes c) ++
          List.replicate (fixPrepared.capacity - (hexEncode (containerBytes c)).length) 0 ∧
      c.digest = fixDigest (spansOf fixSigned (byteRangeOf fixPrepared))) :=
  ⟨rfl, by decide, rfl,
    c1_roundtrip (fixPrepare fixPrepared) fixDigest fixIdentity [37, 80, 68, 70] {}
      fixPrepared fixSigned rfl (by decide) rfl⟩

/-- Fixture intermediate document with the reserved capacity of the source,
8192 hex characters. -/
def bigPrepared : Prepared :=
  ⟨List.replicate 8196 7, 2, 8192⟩

/-- Well-formedness of the fixture with the reserved capacity of the
source. -/
theorem bigPrepared_wf : bigPrepared.wf := by
  show 2 + 8192 ≤ (List.replicate 8196 7).length
  rw [List.length_replicate]
  omega

/-- Claim C4: the detached signing step fails, always with SigningFailure,
exactly when the private key cannot be used or the hex encoding of the
container exceeds the reserved capacity of 8192 hex characters; and whenever
it succeeds the full hex container is present in the output, so the container
is never truncated to fit. -/
theorem c4_signing_failure (identity : Identity) (digest : Buffer → Buffer)
    (p : Prepared) (hwf : p.wf) (hcap : p.capacity = 8192) :
    ((∃ e, signDetached identity digest p = .error e) ↔
      identity.keyUsable = false ∨ 8192 < (containerHex identity digest p).length) ∧
    (∀ e, signDetached identity digest p = .error e → e = .signingFailure) ∧
    (∀ out, signDetached identity digest p = .ok out →
      slice out p.start (containerHex identity digest p).length =
        containerHex identity digest p) := by
  rw [← hcap]
  refine ⟨⟨?_, ?_⟩, ?_, ?_⟩
  · rintro ⟨e, he⟩
    unfold signDetached at he
    split at he
    · rename_i hkey
      exact Or.inl hkey
    · split at he
      · rename_i hlen
        exact Or.inr hlen
      · exact absurd he (by simp)
  · intro hor
    rcases hor with hkey | hlen
    · exact ⟨.signingFailure, by simp [signDetached, hkey]⟩
    · exact ⟨.signingFailure, by simp [signDetached, hlen]⟩
  · intro e he
    unfold signDetached at he
    split at he
    · cases he
      rfl
    · split at he
      · cases he
        rfl
      · exact absurd he (by simp)
  · intro out hout
    obtain ⟨-, hfit, hsp⟩ := signDetached_ok identity digest p out hout
    subst hsp
    exact spliced_slice_hex p _ hwf

/-- Witness for claim C4 at a concrete intermediate document with the
reserved capacity of 8192. -/
theorem c4_signing_failure_witness :
    bigPrepared.wf ∧ bigPrepared.capacity = 8192 ∧
    (((∃ e, signDetached fixIdentity fixDigest bigPrepared = .error e) ↔
      fixIdentity.keyUsable = false ∨
        8192 < (containerHex fixIdentity fixDigest bigPrepared).length) ∧
    (∀ e, signDetached fixIdentity fixDigest bigPrepared = .error e →
      e = .signingFailure) ∧
    (∀ out, signDetached fixIdentity fixDigest bigPrepared = .ok out →
      slice out bigPrepared.start (containerHex fixIdentity fixDigest bigPrepared).length =
        containerHex fixIdentity fixDigest bigPrepared)) :=
  ⟨bigPrepared_wf, rfl, c4_signing_failure fixIdentity fixDigest bigPrepared bigPrepared_wf rfl⟩

/-- Claim C9: isPdfValid depends only on the first four bytes. Any buffer
beginning with the four PDF magic bytes is accepted whatever the remaining
bytes are, and any buffer shorter than four bytes is rejected. -/
theorem c9_isPdfValid_header_only :
    (∀ rest : Buffer, isPdfValid (37 :: 80 :: 68 :: 70 :: rest) = true) ∧
    (∀ buffer : Buffer, buffer.length < 4 → isPdfValid buffer = false) := by
  constructor
  · intro rest
    have hlen : ¬ (37 :: 80 :: 68 :: 70 :: rest).length < 4 := by
      simp [List.length_cons]
    have htake : (37 :: 80 :: 68 :: 70 :: rest).take 4 = [37, 80, 68, 70] := rfl
    simp [isPdfValid, hlen, htake, asciiDecode]
  · intro buffer h
    simp [isPdfValid, h]

/-- Witness for claim C9 at concrete buffers. -/
theorem c9_isPdfValid_header_only_witness :
    isPdfValid [37, 80, 68, 70, 255] = true ∧ isPdfValid [1, 2] = false :=
  ⟨c9_isPdfValid_header_only.1 [255], c9_isPdfValid_header_only.2 [1, 2] (by decide)⟩

/-- Claim C3 (amended): whenever the header check fails — the buffer is
shorter than four bytes, or its first four bytes after the ascii decoding
clears each highest bit do not spell the PDF magic — signPdfBuffer fails with
InvalidDocument and returns no output, whatever the placeholder and signing
collaborators are, so no placeholder or cryptographic work influences the
outcome. -/
theorem c3_invalid_header_rejected
    (prepare : Buffer → PlaceholderArgs → Except SignError Prepared)
    (digest : Buffer → Buffer) (identity : Identity)
    (input : Buffer) (opts : SignatureOptions)
    (h : isPdfValid input = false) :
    signPdfBuffer prepare digest identity input opts = .error .invalidDocument := by
  simp [signPdfBuffer, h]

/-- Witness for claim C3 at a concrete non-PDF buffer. -/
theorem c3_invalid_header_rejected_witness :
    isPdfValid [1, 2, 3] = false ∧
      signPdfBuffer (fixPrepare fixPrepared) fixDigest fixIdentity [1, 2, 3] {} =
        .error .invalidDocument :=
  ⟨by decide,
    c3_invalid_header_rejected (fixPrepare fixPrepared) fixDigest fixIdentity
      [1, 2, 3] {} (by decide)⟩

/-- Claim C3 counterexample: the four byte buffer 165 80 68 70 does not begin
with the raw PDF magic bytes 37 80 68 70, yet isPdfValid accepts it, because
the ascii decoding clears the highest bit of 165 and yields 37; with such an
input signPdfBuffer proceeds past validation into the placeholder and signing
steps and returns a signed output instead of failing with InvalidDocument. -/
theorem c3_counterexample :
    List.take 4 [165, 80, 68, 70] ≠ [37, 80, 68, 70] ∧
    isPdfValid [165, 80, 68, 70] = true ∧
    signPdfBuffer (fixPrepare fixPrepared) fixDigest fixIdentity [165, 80, 68, 70] {} =
      .ok fixSigned :=
  ⟨by decide, by decide, rfl⟩

/-- Claim C5: with an empty options object the metadata passed to the
placeholder step is exactly the fixed documented defaults, none of them
empty, and signPdfBuffer behaves identically to a call with those defaults
supplied explicitly, so the absence of options never causes an error. -/
theorem c5_metadata_defaults :
    placeholderArgs {} =
      { reason := "Document signed by server", location := "Server",
        contactInfo := "N/A", name := "PDF Signing Server", signatureLength := 8192 } ∧
    ((placeholderArgs {}).reason ≠ "" ∧ (placeholderArgs {}).location ≠ "" ∧
      (placeholderArgs {}).contactInfo ≠ "") ∧
    (∀ (prepare : Buffer → PlaceholderArgs → Except SignError Prepared)
      (digest : Buffer → Buffer) (identity : Identity) (input : Buffer),
      signPdfBuffer prepare digest identity input {} =
        signPdfBuffer prepare digest identity input
          { reason := some "Document signed by server", location := some "Server",
            contact := some "N/A" }) := by
  have hargs : placeholderArgs {} =
      placeholderArgs
        { reason := some "Document signed by server", location := some "Server",
          contact := some "N/A" } := by decide
  refine ⟨by decide, ⟨by decide, by decide, by decide⟩, ?_⟩
  intro prepare digest identity input
  unfold signPdfBuffer
  rw [hargs]

/-- Claim C10: an empty string supplied for reason, location or contact is
replaced by the corresponding fixed default, because the empty string is
falsy in JavaScript, and the metadata passed to the placeholder step is never
the empty string. -/
theorem c10_empty_string_defaults (opts : SignatureOptions) :
    (opts.reason = some "" → (placeholderArgs opts).reason = "Document signed by server") ∧
    (opts.location = some "" → (placeholderArgs opts).location = "Server") ∧
    (opts.contact = some "" → (placeholderArgs opts).contactInfo = "N/A") ∧
    (placeholderArgs opts).reason ≠ "" ∧
    (placeholderArgs opts).location ≠ "" ∧
    (placeholderArgs opts).contactInfo ≠ "" := by
  obtain ⟨r, l, c⟩ := opts
  refine ⟨?_, ?_, ?_, ?_, ?_, ?_⟩
  · rintro rfl
    simp [placeholderArgs, jsStringOr]
  · rintro rfl
    simp [placeholderArgs, jsStringOr]
  · rintro rfl
    simp [placeholderArgs, jsStringOr]
  · show jsStringOr r "Document signed by server" ≠ ""
    rcases r with - | v
    · decide
    · show (if v = "" then "Document signed by server" else v) ≠ ""
      split
      · decide
      · assumption
  · show jsStringOr l "Server" ≠ ""
    rcases l with - | v
    · decide
    · show (if v = "" then "Server" else v) ≠ ""
      split
      · decide
      · assumption
  · show jsStringOr c "N/A" ≠ ""
    rcases c with - | v
    · decide
    · show (if v = "" then "N/A" else v) ≠ ""
      split
      · decide
      · assumption

/-- Witness for claim C10 at an options object carrying three empty
strings. -/
theorem c10_empty_string_defaults_witness :
    (placeholderArgs ⟨some "", some "", some ""⟩).reason = "Document signed by server" ∧
    (placeholderArgs ⟨some "", some "", some ""⟩).location = "Server" ∧
    (placeholderArgs ⟨some "", some "", some ""⟩).contactInfo = "N/A" :=
  ⟨(c10_empty_string_defaults ⟨some "", some "", some ""⟩).1 rfl,
    (c10_empty_string_defaults ⟨some "", some "", some ""⟩).2.1 rfl,
    (c10_empty_string_defaults ⟨some "", some "", some ""⟩).2.2.1 rfl⟩

/-- Claim C7: signPdfBuffer is a deterministic transformation. Two runs on
equal collaborators, equal identity, equal input bytes and equal options
produce byte-identical results; the nondeterminism of the cryptographic
algorithm lives only in the digest and identity parameters, which are held
fixed. -/
theorem c7_deterministic
    (prepare₁ prepare₂ : Buffer → PlaceholderArgs → Except SignError Prepared)
    (digest₁ digest₂ : Buffer → Buffer) (identity₁ identity₂ : Identity)
    (input₁ input₂ : Buffer) (opts₁ opts₂ : SignatureOptions)
    (hp : prepare₁ = prepare₂) (hd : digest₁ = digest₂) (hi : identity₁ = identity₂)
    (hin : input₁ = input₂) (ho : opts₁ = opts₂) :
    signPdfBuffer prepare₁ digest₁ identity₁ input₁ opts₁ =
      signPdfBuffer prepare₂ digest₂ identity₂ input₂ opts₂ := by
  subst hp
  subst hd
  subst hi
  subst hin
  subst ho
  rfl

/-- Witness for claim C7 at a concrete pair of identical runs. -/
theorem c7_deterministic_witness :
    signPdfBuffer (fixPrepare fixPrepared) fixDigest fixIdentity [37, 80, 68, 70] {} =
      signPdfBuffer (fixPrepare fixPrepared) fixDigest fixIdentity [37, 80, 68, 70] {} :=
  c7_deterministic (fixPrepare fixPrepared) (fixPrepare fixPrepared) fixDigest fixDigest
    fixIdentity fixIdentity [37, 80, 68, 70] [37, 80, 68, 70] {} {} rfl rfl rfl rfl rfl

/-- Non-secret certificate metadata assembled by
PdfSigner.parseCertificateInfo; absent JavaScript fields are none. -/
structure CertInfo where
  loaded : Bool
  path : Option String
  timestamp : Option Nat
  algorithm : Option String
  hasPrivateKey : Option Bool
  error : Option String
  deriving DecidableEq, Repr

/-- PdfSigner.parseCertificateInfo: fs.statSync is the collaborator fsStat,
giving the file modification time or an error message; on success the info
records the path, the time, the fixed algorithm name and a boolean, and on
failure only the error message. -/
def parseCertificateInfo (fsStat : String → Except String Nat) (certPath : String) :
    CertInfo :=
  match fsStat certPath with
  | .ok mtime =>
      { loaded := true, path := some certPath, timestamp := some mtime,
        algorithm := some "PKCS#7/CMS (Detached)", hasPrivateKey := some true,
        error := none }
  | .error msg =>
      { loaded := false, path := none, timestamp := none, algorithm := none,
        hasPrivateKey := none, error := some msg }

/-- State of a constructed PdfSigner. -/
structure PdfSignerState where
  certPath : String
  passphrase : String
  certificate : Buffer
  certificateInfo : CertInfo
  deriving DecidableEq, Repr

/-- PdfSigner.constructor together with loadCertificate: read the certificate
file synchronously (fs.readFileSync is the collaborator fsRead) and parse the
certificate info; a read failure becomes the constructor error with the
distinguishing message of the source. -/
def mkPdfSigner (fsRead : String → Except String Buffer)
    (fsStat : String → Except String Nat) (certPath passphrase : String) :
    Except String PdfSignerState :=
  match fsRead certPath with
  | .error msg => .error ("Failed to load certificate: " ++ msg)
  | .ok certBuffer =>
      .ok { certPath := certPath, passphrase := passphrase,
            certificate := certBuffer,
            certificateInfo := parseCertificateInfo fsStat certPath }

/-- PdfSigner.getCertificateInfo: the stored certificateInfo spread together
with the fixed message field. -/
def getCertificateInfo (s : PdfSignerState) : CertInfo × String :=
  (s.certificateInfo, "Certificate is loaded and ready for signing")

/-- Path of the signing certificate used by initializeSigner. -/
def signingCertPath : String := "certs/signing-cert.p12"

/-- initializeSigner from the server module: when the certificate file does
not exist the process exits before the server listens, modelled as an error;
otherwise the PdfSigner is constructed, and a constructor failure also exits.
The server accepts signing requests only after this returns a signer. -/
def initializeSigner (fsExists : String → Bool)
    (fsRead : String → Except String Buffer)
    (fsStat : String → Except String Nat) (passphrase : String) :
    Except String PdfSignerState :=
  if fsExists signingCertPath = false then .error "Certificate not found"
  else mkPdfSigner fsRead fsStat signingCertPath passphrase

/-- Claim C6: the identity is loaded synchronously at construction. When the
certificate file cannot be read the constructor fails with the load-failure
error and initializeSigner never yields a signer, so the server never becomes
ready; and any signer produced by initializeSigner holds exactly the bytes
the read of the certificate path returns, loaded before any request. -/
theorem c6_identity_load (fsExists : String → Bool)
    (fsRead : String → Except String Buffer) (fsStat : String → Except String Nat)
    (passphrase : String) :
    (∀ msg, fsRead signingCertPath = .error msg →
      mkPdfSigner fsRead fsStat signingCertPath passphrase =
        .error ("Failed to load certificate: " ++ msg) ∧
      ∀ s, initializeSigner fsExists fsRead fsStat passphrase ≠ .ok s) ∧
    (∀ s, initializeSigner fsExists fsRead fsStat passphrase = .ok s →
      fsRead signingCertPath = .ok s.certificate) := by
  constructor
  · intro msg hread
    have hmk : mkPdfSigner fsRead fsStat signingCertPath passphrase =
        .error ("Failed to load certificate: " ++ msg) := by
      unfold mkPdfSigner
      rw [hread]
    refine ⟨hmk, ?_⟩
    intro s hs
    unfold initializeSigner at hs
    split at hs
    · exact absurd hs (by simp)
    · rw [hmk] at hs
      exact absurd hs (by simp)
  · intro s hs
    unfold initializeSigner at hs
    split at hs
    · exact absurd hs (by simp)
    · unfold mkPdfSigner at hs
      cases hread : fsRead signingCertPath with
      | error msg =>
          rw [hread] at hs
          exact absurd hs (by simp)
      | ok certBuffer =>
          rw [hread] at hs
          cases hs
          rfl

/-- Witness for claim C6 at a concrete failing filesystem. -/
theorem c6_identity_load_witness :
    mkPdfSigner (fun _ => .error "boom") (fun _ => .ok 0) signingCertPath "password" =
      .error ("Failed to load certificate: " ++ "boom") :=
  ((c6_identity_load (fun _ => true) (fun _ => .error "boom") (fun _ => .ok 0)
    "password").1 "boom" rfl).1

/-- Claim C8: certificate introspection never depends on key material. Two
signers constructed over the same certificate path and the same stat
collaborator, but with arbitrary certificate bytes and arbitrary passphrases,
return identical introspection results; the result carries only the
non-secret metadata record and the fixed message. -/
theorem c8_no_key_material
    (fsRead₁ fsRead₂ : String → Except String Buffer)
    (fsStat : String → Except String Nat) (certPath pass₁ pass₂ : String)
    (s₁ s₂ : PdfSignerState)
    (h₁ : mkPdfSigner fsRead₁ fsStat certPath pass₁ = .ok s₁)
    (h₂ : mkPdfSigner fsRead₂ fsStat certPath pass₂ = .ok s₂) :
    getCertificateInfo s₁ = getCertificateInfo s₂ := by
  have hinfo : ∀ (fsRead : String → Except String Buffer) (pass : String)
      (s : PdfSignerState), mkPdfSigner fsRead fsStat certPath pass = .ok s →
      s.certificateInfo = parseCertificateInfo fsStat certPath := by
    intro fsRead pass s h
    unfold mkPdfSigner at h
    cases hread : fsRead certPath with
    | error msg =>
        rw [hread] at h
        exact absurd h (by simp)
    | ok certBuffer =>
        rw [hread] at h
        cases h
        rfl
  unfold getCertificateInfo
  rw [hinfo fsRead₁ pass₁ s₁ h₁, hinfo fsRead₂ pass₂ s₂ h₂]

/-- Fixture signer state built over certificate bytes 9 9 and passphrase
a. -/
def certState₁ : PdfSignerState :=
  { certPath := "p", passphrase := "a", certificate := [9, 9],
    certificateInfo := parseCertificateInfo (fun _ => .ok 5) "p" }

/-- Fixture signer state built over certificate byte 1 and passphrase b. -/
def certState₂ : PdfSignerState :=
  { certPath := "p", passphrase := "b", certificate := [1],
    certificateInfo := parseCertificateInfo (fun _ => .ok 5) "p" }

/-- Witness for claim C8 at two concrete signers differing only in key bytes
and passphrase. -/
theorem c8_no_key_material_witness :
    getCertificateInfo certState₁ = getCertificateInfo certState₂ :=
  c8_no_key_material (fun _ => .ok [9, 9]) (fun _ => .ok [1]) (fun _ => .ok 5)
    "p" "a" "b" certState₁ certState₂ rfl rfl

end PdfSigning
